import Mathlib

/-!
Verification of the civicrmapi dispatch / parameter-normalization /
response-normalization core against its natural-language specification.

The embedding follows the package's exported call path
(`civicrmapi/base.py`, re-exported by `civicrmapi/__init__.py`) together
with the console transport error handling (`civicrmapi/cv.py`), the helper
`civicrmapi/utils.py`, and the alternate registration variant in
`civicrmapi/api.py`.  JSON values are modelled by an inductive type,
Python dicts by association lists with unique keys (the unique-key
invariant holds for every dict reachable from Python code; theorems are
stated for all lists where they hold regardless).
-/

namespace Civicrmapi

/-- Decoded JSON values, as produced by Python's json.loads.  Numbers are
modelled as integers (all values occurring in the repository's code, tests
and docs are integral). -/
inductive Json where
  | null
  | bool (b : Bool)
  | num (n : Int)
  | str (s : String)
  | arr (items : List Json)
  | obj (members : List (String × Json))

/-- A Python dict with string keys, as passed for api parameters. -/
abbrev Params := List (String × Json)

/-- Python dict lookup (first binding; Python dicts have unique keys). -/
def getKey {α : Type} (kvs : List (String × α)) (k : String) : Option α :=
  match kvs with
  | [] => none
  | (k2, v) :: rest => if k2 = k then some v else getKey rest k

/-- Python `k in d` membership test on a dict. -/
def hasKey {α : Type} (kvs : List (String × α)) (k : String) : Bool :=
  (getKey kvs k).isSome

/-- Python `d.pop(k)`'s effect on the dict: the binding of `k` is removed.
On a unique-key list this removes exactly the one binding. -/
def removeKey {α : Type} (kvs : List (String × α)) (k : String) : List (String × α) :=
  kvs.filter (fun kv => !(kv.1 == k))

/-- Python truthiness of a decoded JSON value (used by `data.get('is_error',
False)` in `BaseApi._check_api_response`). -/
def truthy : Json → Bool
  | .null => false
  | .bool b => b
  | .num n => n != 0
  | .str s => !(s == "")
  | .arr items => !items.isEmpty
  | .obj members => !members.isEmpty

/-- True when the pattern occurs at the head of the text. -/
def matchesAt : List Char → List Char → Bool
  | [], _ => true
  | _ :: _, [] => false
  | p :: ps, c :: cs => p == c && matchesAt ps cs

/-- True when the pattern occurs somewhere in the text. -/
def containsChars (pat text : List Char) : Bool :=
  match text with
  | [] => pat.isEmpty
  | c :: cs => matchesAt pat (c :: cs) || containsChars pat cs

/-- Python `pat in s` substring test on strings. -/
def strContainsSub (s pat : String) : Bool :=
  containsChars pat.toList s.toList

/-- Python `pat.lower() in s.lower()` on ASCII text: both sides are
lowercased character by character before the substring test. -/
def strContainsLower (s pat : String) : Bool :=
  containsChars (pat.toList.map Char.toLower) (s.toList.map Char.toLower)

/-- Embeds `utils.dict_to_where_clause_list`: each dict item `(key, value)`
becomes the list `[key, "=", value]`. -/
def dict_to_where_clause_list (data : Params) : List Json :=
  data.map (fun kv => Json.arr [Json.str kv.1, Json.str "=", kv.2])

/-- Embeds `BaseApi._prepare_api_v4_parameters` (base.py lines 171-204),
additionally recording the frame effect on the caller's dict object: the
first component is the returned parameter dict, the second is the content
of the caller-supplied dict object after the call (Python `params.pop('id')`
in the update branch mutates it; every other branch leaves it untouched). -/
def prepare_api_v4_parameters_frame (isV4 : Bool) (action : String) (params : Params) :
    Params × Params :=
  if !params.isEmpty && isV4 then
    if (action == "get" || action == "delete") && !hasKey params "where" then
      ([("where", Json.arr (dict_to_where_clause_list params))], params)
    else if action == "create" && !hasKey params "values" then
      ([("values", Json.obj params)], params)
    else if action == "update" && !hasKey params "where" && hasKey params "id" then
      let idv := (getKey params "id").getD Json.null
      let rest := removeKey params "id"
      ([("where", Json.arr (dict_to_where_clause_list [("id", idv)])),
        ("values", Json.obj rest)], rest)
    else (params, params)
  else (params, params)

/-- The value returned by `BaseApi._prepare_api_v4_parameters`. -/
def prepare_api_v4_parameters (isV4 : Bool) (action : String) (params : Params) : Params :=
  (prepare_api_v4_parameters_frame isV4 action params).1

/-- Python `params or dict()` on a dict-typed value: an empty dict is
replaced by a (fresh) empty dict, anything else passes through. -/
def or_dict (params : Params) : Params :=
  if params.isEmpty then [] else params

theorem or_dict_eq (params : Params) : or_dict params = params := by
  cases params <;> rfl

/-- A transport reply's textual payload together with the outcome of Python's
json.loads on it: either it parses to a JSON value or it is not JSON. -/
inductive RawReply where
  | json (value : Json) (text : String)
  | notJson (text : String)

/-- The raw text of a reply (`response.text` for requests responses,
`response.stdout` for subprocess results; both hold the transport's
textual payload). -/
def RawReply.rawText : RawReply → String
  | .json _ text => text
  | .notJson text => text

/-- Failures raised along the call path of `BaseApi.__call__`.  The two
invalidResponse constructors both embed the Python exception class
`errors.InvalidResponse`, which is raised with the transport reply in
`_get_data_from_response` and with the decoded data in
`_normalize_result_values`.  `typeError` stands for an uncaught Python
TypeError escaping from duck-typed code. -/
inductive ApiErr where
  | invalidResponse (response : RawReply)
  | invalidResponseData (data : Json)
  | invalidApiCall (data : Json)
  | typeError

/-- Embeds `InvalidResponse.__str__` (errors.py lines 81-85): the diagnostic
of an InvalidResponse raised on a parse failure is the reply's raw text
(`getattr(response, 'text', response.stdout)`). -/
def ApiErr.diag : ApiErr → Option String
  | .invalidResponse response => some response.rawText
  | _ => none

/-- Embeds `BaseApi._get_data_from_response` (base.py lines 217-234):
json.loads the reply text, raising InvalidResponse(response) on a parse
failure. -/
def get_data_from_response (response : RawReply) : Except ApiErr Json :=
  match response with
  | .json value _ => .ok value
  | .notJson _ => .error (.invalidResponse response)

/-- Embeds `BaseApi._check_api_response` (base.py lines 236-252): a dict
with a truthy `is_error` member or with an `error_code` member raises
InvalidApiCall; everything else passes through. -/
def check_api_response (data : Json) : Except ApiErr Json :=
  match data with
  | .obj members =>
    if truthy ((getKey members "is_error").getD (Json.bool false)) then
      .error (.invalidApiCall data)
    else if hasKey members "error_code" then
      .error (.invalidApiCall data)
    else
      .ok data
  | _ => .ok data

/-- Embeds `BaseApi._normalize_result_values` (base.py lines 254-271) with
Python's duck-typing semantics: a list is returned as is; otherwise
`'values' in data` is evaluated — dict membership for a dict, substring
test for a string (then `data['values']` on the string raises TypeError),
and a TypeError for every other value; a dict with a `values` member
returns that member, and the remaining cases raise
InvalidResponse(data). -/
def normalize_result_values (data : Json) : Except ApiErr Json :=
  match data with
  | .arr items => .ok (.arr items)
  | .obj members =>
    match getKey members "values" with
    | some v => .ok v
    | none => .error (.invalidResponseData data)
  | .str s =>
    if strContainsSub s "values" then .error .typeError
    else .error (.invalidResponseData data)
  | _ => .error .typeError

/-- Composition of decode and error check, the first two response-processing
steps of `BaseApi.__call__` (base.py lines 167-168). -/
def classify_response (response : RawReply) : Except ApiErr Json :=
  match get_data_from_response response with
  | .error e => .error e
  | .ok data => check_api_response data

/-- The abstract transport collaborator: `_perform_api_call` produces a
textual reply for an entity, action and prepared parameter dict. -/
abbrev Transport := String → String → Params → RawReply

/-- Embeds `BaseApi.__call__` (base.py lines 155-169): prepare the v4
parameters, perform the transport call on `params or dict()`, decode,
check for api errors and normalize the result values. -/
def api_call (t : Transport) (isV4 : Bool) (entity action : String) (params : Params) :
    Except ApiErr Json :=
  match classify_response
      (t entity action (or_dict (prepare_api_v4_parameters isV4 action params))) with
  | .error e => .error e
  | .ok data => normalize_result_values data

/-- `BaseApi.__call__` together with the final content of the caller's
parameter dict object.  `_prepare_api_v4_parameters` is the only step of
the v4 call path that mutates it (`params.pop('id')` in the update branch);
the prepared dict handed to the transport is a fresh dict in every
mutating branch. -/
def api_call_frame (t : Transport) (isV4 : Bool) (entity action : String) (params : Params) :
    Except ApiErr Json × Params :=
  (api_call t isV4 entity action params,
   (prepare_api_v4_parameters_frame isV4 action params).2)

/-- Embeds `BaseEntity.__call__` (base.py lines 93-101): delegate to the
api with this entity's name and `params or dict()`. -/
def entity_call (t : Transport) (isV4 : Bool) (entityName action : String) (params : Params) :
    Except ApiErr Json :=
  api_call t isV4 entityName action (or_dict params)

/-- Embeds `BaseAction.__call__` (base.py lines 33-40): delegate to the
entity with this action's name and `params or dict()`. -/
def action_call (t : Transport) (isV4 : Bool) (entityName actionName : String) (params : Params) :
    Except ApiErr Json :=
  entity_call t isV4 entityName actionName (or_dict params)

/-- Values an entity attribute can hold in the registration scenarios of the
specification: a plain string override (the stub `get = "fakemethod"`) or a
synthesized BaseAction instance carrying its action name. -/
inductive EntityAttr where
  | strVal (s : String)
  | actionInst (name : String)
  deriving DecidableEq

/-- An attribute dictionary: Python's insertion-ordered mapping from
attribute name to value (unique keys). -/
abbrev AttrMap := List (String × EntityAttr)

/-- Python `setattr` on an instance dict: rebind an existing key in place,
or append a new binding. -/
def setAttr (m : AttrMap) (k : String) (v : EntityAttr) : AttrMap :=
  match m with
  | [] => [(k, v)]
  | (k2, v2) :: rest => if k2 = k then (k, v) :: rest else (k2, v2) :: setAttr rest k v

/-- Python attribute lookup on an object: the instance dict first, then the
class (with its inherited attributes, flattened into one dict here). -/
def getAttr (inst cls : AttrMap) (k : String) : Option EntityAttr :=
  match getKey inst k with
  | some v => some v
  | none => getKey cls k

/-- Python `hasattr` on an object. -/
def hasAttr (inst cls : AttrMap) (k : String) : Bool :=
  (getAttr inst cls k).isSome

/-- The v4 default action names (v4/base.py, `BaseEntity.ACTIONS`). -/
def V4_ACTIONS : List String :=
  ["checkAccess", "getActions", "getFields", "get", "create", "update", "save",
   "delete", "replace"]

/-- Embeds `BaseEntity.add_default_actions` with `BaseEntity.add_action`
(base.py lines 69-91), the package's exported registration: for every
default action name a BaseAction subclass is synthesized and bound with
`setattr(self, action.NAME, action(self))`, unconditionally. -/
def add_default_actions (actions : List String) (inst : AttrMap) : AttrMap :=
  actions.foldl (fun m a => setAttr m a (.actionInst a)) inst

/-- Embeds the alternate `BaseEntity._add_actions` variant (api.py lines
36-43): an action name for which `hasattr(self, action)` already holds is
skipped; otherwise a synthesized action instance is bound. -/
def add_actions_skip_existing (actions : List String) (cls : AttrMap) (inst : AttrMap) :
    AttrMap :=
  actions.foldl (fun m a => if hasAttr m cls a then m else setAttr m a (.actionInst a)) inst

/-- Outcome of the console transport's handling of a process that exited
non-zero (`subprocess.CalledProcessError`). -/
inductive CvOutcome where
  | apiError (stderr : String)
  | handled (data : Json)
  | reraise
  | typeError

/-- Embeds the `except subprocess.CalledProcessError` handler of
`BaseCvApi._perform_api_call` (cv.py lines 52-72): when stderr contains
the lowercased v4 usage fragment, ApiError(exc.stderr) is raised; else
json.loads(exc.stdout) is attempted and `data['is_error']` evaluated —
a JSONDecodeError or KeyError re-raises the original process error, a
dict with the key returns the data for the base class to handle, and
indexing a decoded non-dict with a string raises an uncaught TypeError. -/
def cv_handle_failure (stdout : RawReply) (stderr : String) : CvOutcome :=
  if strContainsLower stderr "api4 [--in IN] [--out OUT]" then
    .apiError stderr
  else
    match stdout with
    | .notJson _ => .reraise
    | .json data _ =>
      match data with
      | .obj members => if hasKey members "is_error" then .handled data else .reraise
      | _ => .typeError

/-- True exactly for JSON sequences. -/
def Json.isArr : Json → Bool
  | .arr _ => true
  | _ => false

/-- The decoded JSON value of a reply, when its text parses. -/
def RawReply.decoded : RawReply → Option Json
  | .json value _ => some value
  | .notJson _ => none

/-! ### Helper lemmas -/

theorem hasKey_removeKey {α : Type} (kvs : List (String × α)) (k : String) :
    hasKey (removeKey kvs k) k = false := by
  induction kvs with
  | nil => rfl
  | cons kv rest ih =>
    rcases kv with ⟨k2, v⟩
    by_cases h : k2 = k
    · simpa [removeKey, List.filter_cons, h] using ih
    · simp only [removeKey, List.filter_cons] at ih ⊢
      simp [h, hasKey, getKey] at ih ⊢
      exact ih

theorem getKey_setAttr_ne (m : AttrMap) (a k : String) (v : EntityAttr) (h : a ≠ k) :
    getKey (setAttr m a v) k = getKey m k := by
  induction m with
  | nil => simp [setAttr, getKey, h]
  | cons kv rest ih =>
    rcases kv with ⟨k2, v2⟩
    by_cases h2 : k2 = a
    · simp [setAttr, h2, getKey, h]
    · simp only [setAttr, h2, if_false]
      by_cases h3 : k2 = k <;> simp [getKey, h3, ih]

/-- An unfolding equation for the returned value of
`_prepare_api_v4_parameters`. -/
theorem prepare_eq_def (isV4 : Bool) (action : String) (params : Params) :
    prepare_api_v4_parameters isV4 action params =
      if !params.isEmpty && isV4 then
        if (action == "get" || action == "delete") && !hasKey params "where" then
          [("where", Json.arr (dict_to_where_clause_list params))]
        else if action == "create" && !hasKey params "values" then
          [("values", Json.obj params)]
        else if action == "update" && !hasKey params "where" && hasKey params "id" then
          [("where", Json.arr (dict_to_where_clause_list
              [("id", (getKey params "id").getD Json.null)])),
           ("values", Json.obj (removeKey params "id"))]
        else params
      else params := by
  unfold prepare_api_v4_parameters prepare_api_v4_parameters_frame
  split_ifs <;> rfl

/-! ### Claim theorems -/

/-- C1: for every entity name, action name and parameter mapping, calling
the Action instance, calling the Entity instance with the action name, and
calling the Api instance with entity and action name produce identical
results and identical failures, because the outer levels delegate to the
single Api call path (passing `params or dict()` down). -/
theorem c1_three_call_styles_agree (t : Transport) (isV4 : Bool)
    (entityName actionName : String) (params : Params) :
    action_call t isV4 entityName actionName params =
      api_call t isV4 entityName actionName params ∧
    entity_call t isV4 entityName actionName params =
      api_call t isV4 entityName actionName params := by
  unfold action_call entity_call
  rw [or_dict_eq, or_dict_eq]
  exact ⟨rfl, rfl⟩

/-- C3: for a non-empty v4 parameter mapping that already carries one of the
structured keys `where`, `values`, `select` or `join`, and an action other
than get, create, update and delete, parameter normalization returns the
mapping unchanged. -/
theorem c3_other_actions_pass_through (action : String) (params : Params)
    (hne : params ≠ [])
    (hkeys : hasKey params "where" = true ∨ hasKey params "values" = true ∨
      hasKey params "select" = true ∨ hasKey params "join" = true)
    (hget : action ≠ "get") (hcreate : action ≠ "create")
    (hupdate : action ≠ "update") (hdelete : action ≠ "delete") :
    prepare_api_v4_parameters true action params = params := by
  rw [prepare_eq_def]
  simp [hget, hcreate, hupdate, hdelete]

/-- C3 witness: the action `getFields` with explicitly structured
parameters passes through unchanged. -/
theorem c3_other_actions_pass_through_witness :
    prepare_api_v4_parameters true "getFields"
      [("select", Json.arr [Json.str "id"])] = [("select", Json.arr [Json.str "id"])] :=
  c3_other_actions_pass_through "getFields" [("select", Json.arr [Json.str "id"])]
    (by simp) (by right; right; left; rfl)
    (by decide) (by decide) (by decide) (by decide)

/-- C5 (code evaluation at the failing input): a decoded response value that
is neither a sequence nor a mapping nor a string — here the JSON number 42 —
makes `_normalize_result_values` evaluate `'values' in 42`, which raises an
uncaught TypeError instead of the documented InvalidResponse. -/
theorem c5_nonmapping_raises_type_error :
    normalize_result_values (Json.num 42) = Except.error ApiErr.typeError := rfl

/-- C7: normalizing the v4 update action with a flat mapping holding `id`
and no `where` key pops the id and yields the where clause
`[["id", "=", 123]]` with the remaining fields as `values`. -/
theorem c7_update_inference_example :
    prepare_api_v4_parameters true "update"
      [("id", Json.num 123), ("organization_name", Json.str "Mega Org")] =
      [("where", Json.arr [Json.arr [Json.str "id", Json.str "=", Json.num 123]]),
       ("values", Json.obj [("organization_name", Json.str "Mega Org")])] := rfl

/-- C10: a v4 update call on a flat mapping containing `id` and no `where`
key mutates the caller-supplied mapping in place: after the call the
caller's dict no longer contains the `id` key. -/
theorem c10_update_pops_id_from_caller_params (t : Transport) (entity : String)
    (params : Params) (hne : params ≠ [])
    (hw : hasKey params "where" = false) (hid : hasKey params "id" = true) :
    hasKey (api_call_frame t true entity "update" params).2 "id" = false := by
  have hemp : params.isEmpty = false := by
    cases params with
    | nil => cases hne rfl
    | cons kv rest => rfl
  unfold api_call_frame prepare_api_v4_parameters_frame
  simp [hemp, hw, hid, hasKey_removeKey]

/-- C10 witness: a concrete update call on `{id: 1, organization_name: "x"}`
leaves the caller's dict without the `id` key. -/
theorem c10_update_pops_id_from_caller_params_witness :
    hasKey (api_call_frame (fun _ _ _ => RawReply.notJson "") true "Contact" "update"
      [("id", Json.num 1), ("organization_name", Json.str "x")]).2 "id" = false :=
  c10_update_pops_id_from_caller_params (fun _ _ _ => RawReply.notJson "") "Contact"
    [("id", Json.num 1), ("organization_name", Json.str "x")]
    (by simp) rfl rfl

/-- C6: an unparseable transport text raises InvalidResponse carrying the
raw text verbatim; a mapping with a truthy `is_error` member or with an
`error_code` member raises the api-level InvalidApiCall; every other
parsed value is passed on as a success. -/
theorem c6_error_classifier (response : RawReply) :
    (∀ text, response = RawReply.notJson text →
      classify_response response = Except.error (ApiErr.invalidResponse response) ∧
      ApiErr.diag (ApiErr.invalidResponse response) = some text) ∧
    (∀ members text, response = RawReply.json (Json.obj members) text →
      (truthy ((getKey members "is_error").getD (Json.bool false)) = true ∨
        hasKey members "error_code" = true) →
      classify_response response = Except.error (ApiErr.invalidApiCall (Json.obj members))) ∧
    (∀ value text, response = RawReply.json value text →
      (∀ members, value = Json.obj members →
        truthy ((getKey members "is_error").getD (Json.bool false)) = false ∧
        hasKey members "error_code" = false) →
      classify_response response = Except.ok value) := by
  refine ⟨?_, ?_, ?_⟩
  · intro text h
    subst h
    exact ⟨rfl, rfl⟩
  · intro members text h hsig
    subst h
    unfold classify_response get_data_from_response check_api_response
    rcases hsig with h | h
    · simp [h]
    · by_cases h2 : truthy ((getKey members "is_error").getD (Json.bool false)) = true
      · simp [h2]
      · simp at h2
        simp [h2, h]
  · intro value text h hok
    subst h
    unfold classify_response get_data_from_response check_api_response
    cases value with
    | obj members =>
      have hm := hok members rfl
      simp [hm.1, hm.2]
    | null => rfl
    | bool b => rfl
    | num n => rfl
    | str s => rfl
    | arr items => rfl

/-- C6 witness: the unparseable reply text `hello` raises InvalidResponse
whose diagnostic is the text itself. -/
theorem c6_error_classifier_witness :
    classify_response (RawReply.notJson "hello") =
      Except.error (ApiErr.invalidResponse (RawReply.notJson "hello")) ∧
    ApiErr.diag (ApiErr.invalidResponse (RawReply.notJson "hello")) = some "hello" :=
  (c6_error_classifier (RawReply.notJson "hello")).1 "hello" rfl

/-- C2 counterexample: under the package's exported BaseEntity (base.py),
constructing an entity whose class pre-defines `get = "fakemethod"` rebinds
`get` to a synthesized default Action: the pre-existing attribute does not
survive default-action registration. -/
theorem c2_counterexample_registration_overwrites :
    getAttr (add_default_actions V4_ACTIONS [])
      [("get", EntityAttr.strVal "fakemethod")] "get" =
      some (EntityAttr.actionInst "get") ∧
    some (EntityAttr.actionInst "get") ≠ some (EntityAttr.strVal "fakemethod") :=
  ⟨rfl, by decide⟩

/-- C2 amended: the alternate registration variant (api.py,
`BaseEntity._add_actions`) skips every action name for which an attribute
already exists, so a pre-existing attribute keeps its value; the exported
base.py registration instead rebinds every default action name
unconditionally. -/
theorem c2_amended_skip_existing_preserves (actions : List String) (cls inst : AttrMap)
    (k : String) (h : hasAttr inst cls k = true) :
    getAttr (add_actions_skip_existing actions cls inst) cls k = getAttr inst cls k := by
  induction actions generalizing inst with
  | nil => rfl
  | cons a rest ih =>
    simp only [add_actions_skip_existing, List.foldl_cons] at ih ⊢
    by_cases ha : hasAttr inst cls a = true
    · rw [if_pos ha]
      exact ih inst h
    · rw [if_neg ha]
      have hak : a ≠ k := by
        intro e
        rw [e, h] at ha
        exact ha rfl
      have hget : getAttr (setAttr inst a (EntityAttr.actionInst a)) cls k =
          getAttr inst cls k := by
        unfold getAttr
        rw [getKey_setAttr_ne inst a k _ hak]
      have h2 : hasAttr (setAttr inst a (EntityAttr.actionInst a)) cls k = true := by
        unfold hasAttr
        rw [hget]
        exact h
      rw [ih (setAttr inst a (EntityAttr.actionInst a)) h2, hget]

/-- C2 amended witness: with the api.py variant, the stub entity exposing
`get = "fakemethod"` retains that value after default-action
registration. -/
theorem c2_amended_skip_existing_preserves_witness :
    getAttr (add_actions_skip_existing V4_ACTIONS
        [("get", EntityAttr.strVal "fakemethod")] [])
      [("get", EntityAttr.strVal "fakemethod")] "get" =
      getAttr [] [("get", EntityAttr.strVal "fakemethod")] "get" :=
  c2_amended_skip_existing_preserves V4_ACTIONS
    [("get", EntityAttr.strVal "fakemethod")] [] "get" rfl

/-- C4 counterexample: a successful call whose transport replies with the
mapping-shaped envelope `\x7b"values": \x7b"id": 1\x7d\x7d` returns the
bare mapping `\x7b"id": 1\x7d`, not a sequence of records. -/
theorem c4_counterexample_bare_mapping_result :
    api_call (fun _ _ _ => RawReply.json
        (Json.obj [("values", Json.obj [("id", Json.num 1)])]) "reply")
      true "Contact" "get" [] = Except.ok (Json.obj [("id", Json.num 1)]) ∧
    Json.isArr (Json.obj [("id", Json.num 1)]) = false :=
  ⟨rfl, rfl⟩

/-- An unfolding equation for `_normalize_result_values` on strings. -/
theorem normalize_result_values_str (s : String) :
    normalize_result_values (Json.str s) =
      Except.error (if strContainsSub s "values" then ApiErr.typeError
        else ApiErr.invalidResponseData (Json.str s)) := by
  simp only [normalize_result_values]
  split_ifs <;> rfl

/-- C4 amended: the result of a successful call is the decoded transport
reply itself when that reply is a sequence, and otherwise the `values`
member of the decoded mapping-shaped reply, returned as-is — so it is a
sequence whenever the envelope's `values` member is one, but a
mapping-valued `values` member is returned as a bare mapping. -/
theorem c4_amended_result_is_reply_or_values_member (t : Transport) (isV4 : Bool)
    (entity action : String) (params : Params) (result : Json)
    (h : api_call t isV4 entity action params = Except.ok result) :
    (∃ items, result = Json.arr items) ∨
    (∃ members,
      (t entity action (or_dict (prepare_api_v4_parameters isV4 action params))).decoded =
        some (Json.obj members) ∧ getKey members "values" = some result) := by
  unfold api_call at h
  rcases hreply : t entity action (or_dict (prepare_api_v4_parameters isV4 action params)) with
    ⟨value, text⟩ | text
  all_goals rw [hreply] at h
  · unfold classify_response get_data_from_response at h
    cases value with
    | null => simp [check_api_response, normalize_result_values] at h
    | bool b => simp [check_api_response, normalize_result_values] at h
    | num n => simp [check_api_response, normalize_result_values] at h
    | str s => simp [check_api_response, normalize_result_values_str] at h
    | arr items =>
      left
      refine ⟨items, ?_⟩
      simp [check_api_response, normalize_result_values] at h
      exact h.symm
    | obj members =>
      by_cases h1 : truthy ((getKey members "is_error").getD (Json.bool false)) = true
      · simp [check_api_response, h1] at h
      · simp at h1
        by_cases h2 : hasKey members "error_code" = true
        · simp [check_api_response, h1, h2] at h
        · simp at h2
          rcases hv : getKey members "values" with _ | v
          · simp [check_api_response, h1, h2, normalize_result_values, hv] at h
          · simp [check_api_response, h1, h2, normalize_result_values, hv] at h
            right
            refine ⟨members, rfl, ?_⟩
            rw [hv, h]
  · unfold classify_response get_data_from_response at h
    simp at h

/-- C4 amended witness: a transport replying with a bare list yields that
list as the result. -/
theorem c4_amended_result_is_reply_or_values_member_witness :
    (∃ items, Json.arr [] = Json.arr items) ∨
    (∃ members,
      ((fun (_ _ : String) (_ : Params) => RawReply.json (Json.arr []) "reply")
          "Contact" "get"
          (or_dict (prepare_api_v4_parameters true "get" []))).decoded =
        some (Json.obj members) ∧ getKey members "values" = some (Json.arr [])) :=
  c4_amended_result_is_reply_or_values_member
    (fun _ _ _ => RawReply.json (Json.arr []) "reply") true "Contact" "get" []
    (Json.arr []) rfl

/-- C9 counterexample: a failed process with empty stderr whose stdout
parses to the JSON list `[1]` makes the handler evaluate
`data['is_error']` on a list, which raises an uncaught TypeError — it
neither re-classifies the failure nor re-raises the original process
error, contradicting the claim that the process error propagates in every
case not matching the two re-classification conditions. -/
theorem c9_counterexample_list_stdout_type_error :
    cv_handle_failure (RawReply.json (Json.arr [Json.num 1]) "[1]") "" =
      CvOutcome.typeError ∧
    CvOutcome.typeError ≠ CvOutcome.reraise :=
  ⟨rfl, fun h => CvOutcome.noConfusion h⟩

/-- C9 amended: on a non-zero process exit, a stderr containing the v4
usage fragment (case-insensitively) raises an api-level ApiError carrying
the stderr; otherwise a stdout parsing to a mapping with an `is_error`
member is handed back for the base class's error check, which raises the
api-level InvalidApiCall whenever `is_error` is truthy; an unparseable
stdout or a mapping without `is_error` re-raises the original process
error; a stdout parsing to a non-mapping raises an uncaught TypeError. -/
theorem c9_amended_console_failure_classification (stdout : RawReply) (stderr : String) :
    (strContainsLower stderr "api4 [--in IN] [--out OUT]" = true →
      cv_handle_failure stdout stderr = CvOutcome.apiError stderr) ∧
    (strContainsLower stderr "api4 [--in IN] [--out OUT]" = false →
      (∀ text, stdout = RawReply.notJson text →
        cv_handle_failure stdout stderr = CvOutcome.reraise) ∧
      (∀ members text, stdout = RawReply.json (Json.obj members) text →
        (hasKey members "is_error" = true →
          cv_handle_failure stdout stderr = CvOutcome.handled (Json.obj members) ∧
          (truthy ((getKey members "is_error").getD (Json.bool false)) = true →
            check_api_response (Json.obj members) =
              Except.error (ApiErr.invalidApiCall (Json.obj members)))) ∧
        (hasKey members "is_error" = false →
          cv_handle_failure stdout stderr = CvOutcome.reraise))) := by
  constructor
  · intro hfrag
    unfold cv_handle_failure
    rw [if_pos hfrag]
  · intro hfrag
    constructor
    · intro text h
      subst h
      unfold cv_handle_failure
      rw [if_neg (by simp [hfrag])]
    · intro members text h
      subst h
      constructor
      · intro hkey
        refine ⟨?_, ?_⟩
        · unfold cv_handle_failure
          rw [if_neg (by simp [hfrag])]
          simp [hkey]
        · intro htru
          simp [check_api_response, htru]
      · intro hkey
        unfold cv_handle_failure
        rw [if_neg (by simp [hfrag])]
        simp [hkey]

/-- C9 amended witness: a stderr holding the v4 usage text raises ApiError
with that stderr. -/
theorem c9_amended_console_failure_classification_witness :
    cv_handle_failure (RawReply.notJson "")
      "error: api4 [--in IN] [--out OUT] entity.action" =
      CvOutcome.apiError "error: api4 [--in IN] [--out OUT] entity.action" :=
  (c9_amended_console_failure_classification (RawReply.notJson "")
    "error: api4 [--in IN] [--out OUT] entity.action").1 rfl

/-- C8: v4 parameter normalization is idempotent — normalizing an already
normalized parameter set a second time changes nothing, so a parameter set
that already carries `where` (or `values` for create) is never
double-wrapped. -/
theorem prepare_fix_get (w : Json) :
    prepare_api_v4_parameters true "get" [("where", w)] = [("where", w)] := rfl

theorem prepare_fix_delete (w : Json) :
    prepare_api_v4_parameters true "delete" [("where", w)] = [("where", w)] := rfl

theorem prepare_fix_create (v : Json) :
    prepare_api_v4_parameters true "create" [("values", v)] = [("values", v)] := rfl

theorem prepare_fix_update (w v : Json) :
    prepare_api_v4_parameters true "update" [("where", w), ("values", v)] =
      [("where", w), ("values", v)] := rfl

theorem c8_v4_normalization_idempotent (action : String) (params : Params) :
    prepare_api_v4_parameters true action (prepare_api_v4_parameters true action params) =
      prepare_api_v4_parameters true action params := by
  rw [prepare_eq_def true action params]
  by_cases h0 : params.isEmpty = true
  · simp [h0, prepare_eq_def]
  · rw [Bool.not_eq_true] at h0
    by_cases h1 : ((action == "get" || action == "delete") && !hasKey params "where") = true
    · rw [Bool.and_eq_true, Bool.or_eq_true, Bool.not_eq_true'] at h1
      obtain ⟨h1a | h1a, h1b⟩ := h1
      · rw [beq_iff_eq] at h1a
        subst h1a
        simp [h0, h1b, prepare_fix_get]
      · rw [beq_iff_eq] at h1a
        subst h1a
        simp [h0, h1b, prepare_fix_delete]
    · by_cases h2 : (action == "create" && !hasKey params "values") = true
      · rw [Bool.and_eq_true, Bool.not_eq_true'] at h2
        obtain ⟨h2a, h2b⟩ := h2
        rw [beq_iff_eq] at h2a
        subst h2a
        simp [h0, h2b, prepare_fix_create]
      · by_cases h3 :
          (action == "update" && !hasKey params "where" && hasKey params "id") = true
        · rw [Bool.and_eq_true, Bool.and_eq_true, Bool.not_eq_true'] at h3
          obtain ⟨⟨h3a, h3b⟩, h3c⟩ := h3
          rw [beq_iff_eq] at h3a
          subst h3a
          simp [h0, h3b, h3c, prepare_fix_update]
        · simp only [h0, Bool.not_eq_true] at h1 h2 h3
          simp [h0, h1, h2, h3, prepare_eq_def]

end Civicrmapi
